import Mathlib

/-!
Verification of the solar irradiance retrieval-and-normalization pipeline of a
rooftop solar savings calculator.

The embedding follows the JavaScript source:
* `processNasaResponse` (the Irradiance Normalizer) from the cache/API service
  module: it walks the raw provider map of `YYYYMM`-keyed readings, skips the
  annual-aggregate `13` key and negative sentinel readings, builds the monthly
  record list (irradiance rounded to 2 decimals), sorts it by the derived
  month index, and computes the average of the valid raw readings rounded to
  2 decimals (0 when no reading is valid).
* `generateKey` / `cacheGet` / `cacheSet` (the Cache Store): coordinates are
  rounded to 2 decimals to form the key; entries carry a 24h (86400s) expiry.
* `getSolarData` (the Irradiance Fetcher): cache lookup, provider call on a
  miss, normalization, best-effort cache population.  The provider interaction
  is modelled by a `FetchOutcome` value (network error / HTTP response whose
  body may or may not parse as JSON); the returned triple also carries the
  number of provider invocations performed by the call.
* `handleSolar` (the HTTP Endpoint Adapter) from `server.js`, parameterized by
  the fetcher result.
* `calculateSolarPotential` (collaborator) from the frontend calculation
  service.

JavaScript numbers are modelled by `ℚ`; `Math.round` is `round`
(half toward +∞, exactly JS semantics), and `parseFloat(x.toFixed(2))` is
`round2` (round half up at the second decimal).
-/

/-- JS `Math.round` / the rounding used by `toFixed` at a tie: half toward +∞,
which is exactly Mathlib's `round`. Rounding a rational to 2 decimal places,
modelling `parseFloat(value.toFixed(2))`. -/
def round2 (q : ℚ) : ℚ := ((round (q * 100) : ℤ) : ℚ) / 100

/-- The fixed 12-name calendar table (`monthNames` in the source). -/
def monthNames : List String :=
  ["January", "February", "March", "April", "May", "June",
   "July", "August", "September", "October", "November", "December"]

/-- One record of the normalized monthly list:
`{month: name, monthIndex: 0-based, irradiance}`. -/
structure MonthlyRecord where
  month : String
  monthIndex : Int
  irradiance : ℚ
deriving DecidableEq, Repr

/-- The echoed request location. -/
structure Location where
  latitude : ℚ
  longitude : ℚ
deriving DecidableEq, Repr

/-- The canonical result produced by `processNasaResponse`. -/
structure NormalizedSolarData where
  averageDailyIrradiance : ℚ
  monthlyData : List MonthlyRecord
  dataSource : String
  parameter : String
  unit : String
  location : Location
  note : String
deriving DecidableEq, Repr

/-- The nested provider payload: `rawData.properties.parameter.ALLSKY_SFC_SW_DWN`
is a map from period key (string, format `YYYYMM`, `YYYY13` = annual aggregate)
to a numeric reading.  The map is embedded as its entry list (the order of
`Object.keys`); each level is optional, matching `?.` / `|| {}` in the source. -/
structure RawParameterBlock where
  ALLSKY_SFC_SW_DWN : Option (List (String × ℚ))
deriving DecidableEq, Repr

/-- The `properties` object of the raw provider payload. -/
structure RawProperties where
  parameter : Option RawParameterBlock
deriving DecidableEq, Repr

/-- The raw provider payload. -/
structure RawResponse where
  properties : Option RawProperties
deriving DecidableEq, Repr

/-- `rawData.properties?.parameter || {}` followed by
`parameters.ALLSKY_SFC_SW_DWN || {}`: absent levels degrade to the empty map. -/
def irradianceOf (rawData : RawResponse) : List (String × ℚ) :=
  match rawData.properties with
  | none => []
  | some props =>
    match props.parameter with
    | none => []
    | some block => block.ALLSKY_SFC_SW_DWN.getD []

/-- JS `String.prototype.endsWith`, modelled structurally on the char list. -/
def jsEndsWith (s pat : String) : Bool :=
  pat.data.isSuffixOf s.data

/-- `s.slice(-2)`: the last two characters of `s` (all of `s` when shorter). -/
def lastTwo (s : String) : String :=
  { data := s.data.drop (s.data.length - 2) }

/-- The numeric value of a digit string (most significant digit first). -/
def digitsToNat (ds : List Char) : Nat :=
  ds.foldl (fun n c => n * 10 + (c.toNat - 48)) 0

/-- JS `parseInt` restricted to base 10: the longest leading digit run, `none`
for `NaN` (no leading digit). -/
def parseIntPrefix (s : String) : Option Nat :=
  let ds := s.data.takeWhile Char.isDigit
  if ds.isEmpty then none else some (digitsToNat ds)

/-- `parseInt(key.slice(-2)) - 1`: the zero-based month index derived from the
last two characters of the period key.  (For a well-formed `YYYYMM` key the
parse always succeeds; the `getD 0` default stands in for the `NaN` garbage JS
would propagate on a malformed key.) -/
def monthIndexOf (key : String) : Int :=
  (((parseIntPrefix (lastTwo key)).getD 0 : Nat) : Int) - 1

/-- `monthNames[month]`: the month name, or JS `undefined` out of range. -/
def monthNameOf (monthIndex : Int) : String :=
  if 0 ≤ monthIndex ∧ monthIndex < 12 then monthNames.getD monthIndex.toNat "undefined"
  else "undefined"

/-- An entry survives the loop's two guards: its key does not end with `"13"`
(annual aggregate) and its reading is not negative (sentinel / missing). -/
def isValidEntry (e : String × ℚ) : Bool :=
  !(jsEndsWith e.1 "13") && !(e.2 < 0)

/-- The record pushed onto `monthlyData` for a surviving entry. -/
def recordOfEntry (e : String × ℚ) : MonthlyRecord :=
  { month := monthNameOf (monthIndexOf e.1)
    monthIndex := monthIndexOf e.1
    irradiance := round2 e.2 }

/-- One iteration of the `Object.keys(...).forEach` loop: the accumulator is
`(monthlyData, totalIrradiance, validMonths)`. -/
def processStep (acc : List MonthlyRecord × ℚ × Nat) (e : String × ℚ) :
    List MonthlyRecord × ℚ × Nat :=
  if jsEndsWith e.1 "13" then acc
  else if e.2 < 0 then acc
  else (acc.1 ++ [recordOfEntry e], acc.2.1 + e.2, acc.2.2 + 1)

/-- The whole `forEach` loop over the entries of the irradiance map. -/
def processEntries (entries : List (String × ℚ)) : List MonthlyRecord × ℚ × Nat :=
  entries.foldl processStep ([], 0, 0)

/-- The ascending comparison used by `monthlyData.sort((a, b) => a.monthIndex - b.monthIndex)`. -/
def byMonthIndex (a b : MonthlyRecord) : Prop :=
  a.monthIndex ≤ b.monthIndex

instance : DecidableRel byMonthIndex :=
  fun a b => inferInstanceAs (Decidable (a.monthIndex ≤ b.monthIndex))

/-- `processNasaResponse(rawData, latitude, longitude)`: the Irradiance
Normalizer, translated clause by clause from the source. -/
def processNasaResponse (rawData : RawResponse) (latitude longitude : ℚ) :
    NormalizedSolarData :=
  let irradianceData := irradianceOf rawData
  let acc := processEntries irradianceData
  let totalIrradiance := acc.2.1
  let validMonths := acc.2.2
  { averageDailyIrradiance :=
      if validMonths > 0 then round2 (totalIrradiance / (validMonths : ℚ)) else 0
    monthlyData := acc.1.insertionSort byMonthIndex
    dataSource := "NASA POWER API"
    parameter := "ALLSKY_SFC_SW_DWN (All Sky Surface Shortwave Downward Irradiance)"
    unit := "kWh/m^2/day"
    location := { latitude := latitude, longitude := longitude }
    note := "Solar irradiance data represents the average solar energy received per square meter per day" }

/-- A raw payload whose irradiance map holds exactly the given entries. -/
def rawOfEntries (entries : List (String × ℚ)) : RawResponse :=
  { properties := some { parameter := some { ALLSKY_SFC_SW_DWN := some entries } } }

/-- The valid entries of a raw payload: those surviving both loop guards. -/
def validEntries (rawData : RawResponse) : List (String × ℚ) :=
  (irradianceOf rawData).filter isValidEntry

lemma foldl_processStep (entries : List (String × ℚ)) (recs : List MonthlyRecord)
    (t : ℚ) (c : Nat) :
    entries.foldl processStep (recs, t, c) =
      (recs ++ (entries.filter isValidEntry).map recordOfEntry,
       t + ((entries.filter isValidEntry).map Prod.snd).sum,
       c + (entries.filter isValidEntry).length) := by
  induction entries generalizing recs t c with
  | nil => simp
  | cons e es ih =>
    by_cases h13 : jsEndsWith e.1 "13"
    · simp [processStep, isValidEntry, h13, ih]
    · by_cases hneg : e.2 < 0
      · simp [processStep, isValidEntry, h13, hneg, ih]
      · simp [processStep, isValidEntry, h13, hneg, ih, add_assoc, Nat.add_comm]

lemma processEntries_eq (entries : List (String × ℚ)) :
    processEntries entries =
      ((entries.filter isValidEntry).map recordOfEntry,
       ((entries.filter isValidEntry).map Prod.snd).sum,
       (entries.filter isValidEntry).length) := by
  simpa [processEntries] using foldl_processStep entries [] 0 0

lemma monthlyData_eq (rawData : RawResponse) (lat lon : ℚ) :
    (processNasaResponse rawData lat lon).monthlyData =
      ((validEntries rawData).map recordOfEntry).insertionSort byMonthIndex := by
  simp [processNasaResponse, processEntries_eq, validEntries]

lemma averageDailyIrradiance_eq (rawData : RawResponse) (lat lon : ℚ) :
    (processNasaResponse rawData lat lon).averageDailyIrradiance =
      if 0 < (validEntries rawData).length then
        round2 (((validEntries rawData).map Prod.snd).sum / ((validEntries rawData).length : ℚ))
      else 0 := by
  simp [processNasaResponse, processEntries_eq, validEntries]

/-! ## Cache Store (`cacheService`) -/

/-- `Math.round(x * 100) / 100`: a coordinate rounded to 2 decimal places. -/
def roundCoord (x : ℚ) : ℚ := ((round (x * 100) : ℤ) : ℚ) / 100

/-- `generateKey(lat, lon)`: the CoordinateKey string
`solar_${roundedLat}_${roundedLon}`. -/
def generateKey (lat lon : ℚ) : String :=
  "solar_" ++ toString (roundCoord lat) ++ "_" ++ toString (roundCoord lon)

/-- The node-cache store: entries `(key, value, expiry)`; `set` stamps
`expiry = now + stdTTL` with `stdTTL = 86400` seconds (24 hours). -/
def CacheState : Type := List (String × NormalizedSolarData × ℚ)

/-- The empty cache. -/
def emptyCache : CacheState := []

/-- `cacheService.get(lat, lon)`: compute the key, return the stored value when
present and not past its expiry, else `null`. -/
def cacheGet (c : CacheState) (now lat lon : ℚ) : Option NormalizedSolarData :=
  match List.find? (fun e => e.1 == generateKey lat lon) c with
  | some (_, data, expiry) => if now < expiry then some data else none
  | none => none

/-- `cacheService.set(lat, lon, data)`: store `data` under the key with a 24h
TTL, overwriting any existing entry for that key. -/
def cacheSet (c : CacheState) (now lat lon : ℚ) (data : NormalizedSolarData) :
    CacheState :=
  (generateKey lat lon, data, now + 86400) ::
    List.filter (fun e => !(e.1 == generateKey lat lon)) c

/-! ## Irradiance Fetcher (`getSolarData`) -/

/-- The outcome of `fetch(apiUrl)` followed by `response.json()`: a network
error, or an HTTP response with its `ok` flag and a body that either fails to
parse as JSON (`none`) or yields a raw payload. -/
structure HttpResponse where
  ok : Bool
  body : Option RawResponse
deriving Repr

/-- What the single external request of one `getSolarData` call would produce. -/
inductive FetchOutcome where
  | networkFailure : FetchOutcome
  | response : HttpResponse → FetchOutcome
deriving Repr

/-- The generic message of the `catch` block (raw upstream payloads are not
leaked to the caller). -/
def fetchErrorMessage : String := "Failed to fetch solar data from NASA POWER API"

/-- `getSolarData(latitude, longitude)`: cache lookup, provider request on a
miss, normalization, cache population, all in the source's order.  The returned
triple is (result, cache state after the call, number of provider invocations
performed by this call). -/
def getSolarData (provider : FetchOutcome) (cache : CacheState)
    (now latitude longitude : ℚ) :
    Except String NormalizedSolarData × CacheState × Nat :=
  match cacheGet cache now latitude longitude with
  | some cachedData => (Except.ok cachedData, cache, 0)
  | none =>
    match provider with
    | FetchOutcome.networkFailure => (Except.error fetchErrorMessage, cache, 1)
    | FetchOutcome.response r =>
      if !r.ok then (Except.error fetchErrorMessage, cache, 1)
      else
        match r.body with
        | none => (Except.error fetchErrorMessage, cache, 1)
        | some rawData =>
          let processedData := processNasaResponse rawData latitude longitude
          (Except.ok processedData,
           cacheSet cache now latitude longitude processedData, 1)

/-! ## HTTP Endpoint Adapter (`GET /api/solar` in `server.js`) -/

/-- The rational value of parsed sign/integer-part/fraction-part pieces. -/
def floatOfParts (sign : ℚ) (ip fp : List Char) : ℚ :=
  sign * ((digitsToNat ip : ℚ) + (digitsToNat fp : ℚ) / (10 : ℚ) ^ fp.length)

/-- JS `parseFloat` on plain decimal strings: skip leading whitespace, an
optional sign, then the longest `digits[.digits]` prefix; `none` models `NaN`
(no digit found).  (Exponents and `Infinity` are beyond what the endpoint's
inputs use and are not modelled.) -/
def parseFloatQ (s : String) : Option ℚ :=
  let cs := s.data.dropWhile Char.isWhitespace
  let sr : ℚ × List Char :=
    match cs with
    | '-' :: rest => (-1, rest)
    | '+' :: rest => (1, rest)
    | _ => (1, cs)
  let ip := sr.2.takeWhile Char.isDigit
  let afterInt := sr.2.dropWhile Char.isDigit
  let fp :=
    match afterInt with
    | '.' :: rest => rest.takeWhile Char.isDigit
    | _ => []
  if ip.isEmpty && fp.isEmpty then none
  else some (floatOfParts sr.1 ip fp)

/-- The JSON body of a response of the solar endpoint: each field is present
(`some`) or absent from the object. -/
structure ApiBody where
  success : Option Bool
  data : Option NormalizedSolarData
  location : Option Location
  error : Option String
  message : Option String
deriving Repr

/-- An HTTP response of the endpoint: status code and JSON body. -/
structure ApiResult where
  status : Nat
  body : ApiBody
deriving Repr

/-- `400 {error: 'Missing parameters', ...}`. -/
def missingParamsBody : ApiBody :=
  { success := none, data := none, location := none
    error := some "Missing parameters"
    message := some "Both lat and lon query parameters are required" }

/-- `400 {error: 'Invalid latitude', ...}`. -/
def invalidLatBody : ApiBody :=
  { success := none, data := none, location := none
    error := some "Invalid latitude"
    message := some "Latitude must be a number between -90 and 90" }

/-- `400 {error: 'Invalid longitude', ...}`. -/
def invalidLonBody : ApiBody :=
  { success := none, data := none, location := none
    error := some "Invalid longitude"
    message := some "Longitude must be a number between -180 and 180" }

/-- `500 {error: 'API Error', ...}` from the catch block. -/
def apiErrorBody : ApiBody :=
  { success := none, data := none, location := none
    error := some "API Error"
    message := some "Failed to fetch solar data. Please try again later." }

/-- `200 {success: true, data, location}`. -/
def successBody (solarData : NormalizedSolarData) (latitude longitude : ℚ) : ApiBody :=
  { success := some true, data := some solarData
    location := some { latitude := latitude, longitude := longitude }
    error := none, message := none }

/-- The `/api/solar` handler, parameterized by the fetcher.  A query parameter
is `none` when absent; `!lat || !lon` in JS is true when a parameter is
`undefined` or the empty string. -/
def handleSolar (fetchSolar : ℚ → ℚ → Except String NormalizedSolarData)
    (latParam lonParam : Option String) : ApiResult :=
  if latParam.getD "" = "" ∨ lonParam.getD "" = "" then ⟨400, missingParamsBody⟩
  else
    match parseFloatQ (latParam.getD "") with
    | none => ⟨400, invalidLatBody⟩
    | some latitude =>
      if latitude < -90 ∨ latitude > 90 then ⟨400, invalidLatBody⟩
      else
        match parseFloatQ (lonParam.getD "") with
        | none => ⟨400, invalidLonBody⟩
        | some longitude =>
          if longitude < -180 ∨ longitude > 180 then ⟨400, invalidLonBody⟩
          else
            match fetchSolar latitude longitude with
            | Except.ok solarData => ⟨200, successBody solarData latitude longitude⟩
            | Except.error _ => ⟨500, apiErrorBody⟩

/-! ## Collaborator: `calculateSolarPotential` (frontend calculation service) -/

/-- `CO2_FACTOR` from the frontend constants: kg CO₂ per kWh. -/
def CO2_FACTOR : ℚ := 82 / 100

/-- The result object of `calculateSolarPotential`.  `dailyEnergy` is the
numeric value of the `toFixed(2)` string of the source. -/
structure SolarPotential where
  annualEnergy : ℤ
  annualSavings : ℤ
  co2Saved : ℤ
  avgDailyIrradiance : ℚ
  dailyEnergy : ℚ
  monthlySavings : ℤ
deriving DecidableEq, Repr

/-- `calculateSolarPotential(roofArea, efficiency, electricityRate,
avgDailyIrradiance)`, with `Math.round` as `round`. -/
def calculateSolarPotential (roofArea efficiency electricityRate avgDailyIrradiance : ℚ) :
    SolarPotential :=
  let efficiencyDecimal := efficiency / 100
  let annualEnergy := roofArea * efficiencyDecimal * avgDailyIrradiance * 365
  let annualSavings := annualEnergy * electricityRate
  let co2Saved := annualEnergy * CO2_FACTOR
  { annualEnergy := round annualEnergy
    annualSavings := round annualSavings
    co2Saved := round co2Saved
    avgDailyIrradiance := avgDailyIrradiance
    dailyEnergy := round2 (annualEnergy / 365)
    monthlySavings := round (annualSavings / 12) }

/-! ## Theorems -/

instance : IsTotal MonthlyRecord byMonthIndex :=
  ⟨fun a b => le_total a.monthIndex b.monthIndex⟩

instance : IsTrans MonthlyRecord byMonthIndex :=
  ⟨fun _ _ _ hab hbc => le_trans hab hbc⟩

/-- Claim C2: whenever the nested reading map is absent or holds no valid
entry (every entry is the annual-aggregate key or a negative sentinel — i.e.
`validEntries` is empty), the Normalizer returns empty `monthlyData` and
`averageDailyIrradiance = 0`.  The embedding is a total function, matching the
source path that throws nothing: the degraded result is an ordinary value. -/
theorem empty_payload_degrades_to_zero (rawData : RawResponse) (lat lon : ℚ)
    (h : validEntries rawData = []) :
    (processNasaResponse rawData lat lon).monthlyData = [] ∧
    (processNasaResponse rawData lat lon).averageDailyIrradiance = 0 := by
  constructor
  · rw [monthlyData_eq, h]
    rfl
  · rw [averageDailyIrradiance_eq, h]
    simp

/-- Witness for C2: a payload whose map holds only the annual key and a
sentinel (and, through the theorem's `rawData` binder, the absent-map payload
behaves the same). -/
theorem empty_payload_degrades_to_zero_witness :
    validEntries (rawOfEntries [("202413", 6), ("202402", -999)]) = [] ∧
    ((processNasaResponse (rawOfEntries [("202413", 6), ("202402", -999)]) 0 0).monthlyData = [] ∧
     (processNasaResponse (rawOfEntries [("202413", 6), ("202402", -999)]) 0 0).averageDailyIrradiance = 0) :=
  ⟨rfl, empty_payload_degrades_to_zero (rawOfEntries [("202413", 6), ("202402", -999)]) 0 0 rfl⟩

/-- Claim C3: with at least one valid entry, `averageDailyIrradiance` is the
arithmetic mean of the valid readings — their sum divided by their count, not
by 12 — rounded to 2 decimal places. -/
theorem average_is_rounded_mean_of_valid (rawData : RawResponse) (lat lon : ℚ)
    (h : validEntries rawData ≠ []) :
    (processNasaResponse rawData lat lon).averageDailyIrradiance =
      round2 (((validEntries rawData).map Prod.snd).sum /
        ((validEntries rawData).length : ℚ)) := by
  rw [averageDailyIrradiance_eq, if_pos (List.length_pos.mpr h)]

/-- Witness for C3: a partial year of two valid months (plus a sentinel),
whose average divides by 2, not by 12. -/
theorem average_is_rounded_mean_of_valid_witness :
    validEntries (rawOfEntries [("202401", 4), ("202402", 5), ("202403", -999)]) ≠ [] ∧
    (processNasaResponse (rawOfEntries [("202401", 4), ("202402", 5), ("202403", -999)]) 0 0).averageDailyIrradiance =
      round2 (((validEntries (rawOfEntries [("202401", 4), ("202402", 5), ("202403", -999)])).map Prod.snd).sum /
        ((validEntries (rawOfEntries [("202401", 4), ("202402", 5), ("202403", -999)])).length : ℚ)) :=
  ⟨by decide,
   average_is_rounded_mean_of_valid (rawOfEntries [("202401", 4), ("202402", 5), ("202403", -999)]) 0 0 (by decide)⟩

/-- Claim C5: for every raw payload, `monthlyData` is sorted ascending by the
derived zero-based month index (the sort happens after the loop, on the
derived `monthIndex`, whatever order the provider's keys arrived in). -/
theorem monthlyData_sorted_by_monthIndex (rawData : RawResponse) (lat lon : ℚ) :
    List.Sorted byMonthIndex (processNasaResponse rawData lat lon).monthlyData := by
  rw [monthlyData_eq]
  exact List.sorted_insertionSort byMonthIndex _

/-- Claim C9: `calculateSolarPotential` computes
`annualEnergy = roofArea * (efficiency/100) * avgDailyIrradiance * 365`,
`annualSavings = annualEnergy * electricityRate`,
`co2Saved = annualEnergy * 0.82`, each rounded to the nearest integer, and at
`(50, 18, 8, 5)` returns `annualEnergy = 16425`, `annualSavings = 131400`,
`co2Saved = 13469` (exactly; rational arithmetic hits the claim's preferred
rounding order, within its stated tolerance of plus or minus 1). -/
theorem calculateSolarPotential_spec :
    (∀ roofArea efficiency electricityRate avgDailyIrradiance : ℚ,
      (calculateSolarPotential roofArea efficiency electricityRate avgDailyIrradiance).annualEnergy =
        round (roofArea * (efficiency / 100) * avgDailyIrradiance * 365) ∧
      (calculateSolarPotential roofArea efficiency electricityRate avgDailyIrradiance).annualSavings =
        round (roofArea * (efficiency / 100) * avgDailyIrradiance * 365 * electricityRate) ∧
      (calculateSolarPotential roofArea efficiency electricityRate avgDailyIrradiance).co2Saved =
        round (roofArea * (efficiency / 100) * avgDailyIrradiance * 365 * (82 / 100))) ∧
    (calculateSolarPotential 50 18 8 5).annualEnergy = 16425 ∧
    (calculateSolarPotential 50 18 8 5).annualSavings = 131400 ∧
    (calculateSolarPotential 50 18 8 5).co2Saved = 13469 := by
  refine ⟨fun a e r i => ⟨rfl, rfl, rfl⟩, ?_, ?_, ?_⟩
  · show round ((50 : ℚ) * (18 / 100) * 5 * 365) = 16425
    norm_num [round_eq]
  · show round ((50 : ℚ) * (18 / 100) * 5 * 365 * 8) = 131400
    norm_num [round_eq]
  · show round ((50 : ℚ) * (18 / 100) * 5 * 365 * CO2_FACTOR) = 13469
    norm_num [CO2_FACTOR, round_eq]

/-- Claim C10: whenever `getSolarData` fails (network error, non-success
status, or unparseable body), the cache is left exactly as it was: the only
`cacheSet` sits after successful parsing and normalization. -/
lemma getSolarData_cache_or_ok (provider : FetchOutcome) (cache : CacheState)
    (now lat lon : ℚ) :
    (getSolarData provider cache now lat lon).2.1 = cache ∨
      ∃ d, (getSolarData provider cache now lat lon).1 = Except.ok d := by
  unfold getSolarData
  split
  · exact Or.inr ⟨_, rfl⟩
  · split
    · exact Or.inl rfl
    · split
      · exact Or.inl rfl
      · split
        · exact Or.inl rfl
        · exact Or.inr ⟨_, rfl⟩

theorem failed_fetch_leaves_cache_unchanged (provider : FetchOutcome)
    (cache : CacheState) (now lat lon : ℚ) (msg : String)
    (h : (getSolarData provider cache now lat lon).1 = Except.error msg) :
    (getSolarData provider cache now lat lon).2.1 = cache := by
  rcases getSolarData_cache_or_ok provider cache now lat lon with hcase | ⟨d, hd⟩
  · exact hcase
  · rw [hd] at h
    exact absurd h (by simp)

/-- Witness for C10: a network failure against the empty cache errors out and
leaves the cache empty. -/
theorem failed_fetch_leaves_cache_unchanged_witness :
    (getSolarData FetchOutcome.networkFailure emptyCache 0 0 0).1 =
      Except.error fetchErrorMessage ∧
    (getSolarData FetchOutcome.networkFailure emptyCache 0 0 0).2.1 = emptyCache :=
  ⟨rfl, failed_fetch_leaves_cache_unchanged FetchOutcome.networkFailure emptyCache 0 0 0
    fetchErrorMessage rfl⟩

/-- Claim C1: the Normalizer's `monthlyData` consists of exactly the records
of the entries that are neither negative-sentinel nor `13`-suffixed (as a
permutation, before the final sort), and on the raw map
`{"202401": 5.0, "202402": -999, "202413": 6.0}` it yields
`monthlyData = [{month: January, monthIndex: 0, irradiance: 5.0}]` and
`averageDailyIrradiance = 5.0`. -/
theorem sentinel_and_annual_excluded :
    (∀ (rawData : RawResponse) (lat lon : ℚ),
      ((processNasaResponse rawData lat lon).monthlyData).Perm
        ((validEntries rawData).map recordOfEntry)) ∧
    (processNasaResponse (rawOfEntries [("202401", 5), ("202402", -999), ("202413", 6)]) 0 0).monthlyData
      = [{ month := "January", monthIndex := 0, irradiance := 5 }] ∧
    (processNasaResponse (rawOfEntries [("202401", 5), ("202402", -999), ("202413", 6)]) 0 0).averageDailyIrradiance
      = 5 := by
  refine ⟨fun rawData lat lon => ?_, ?_, ?_⟩
  · rw [monthlyData_eq]
    exact List.perm_insertionSort byMonthIndex _
  · rw [monthlyData_eq]
    have h : validEntries (rawOfEntries [("202401", 5), ("202402", -999), ("202413", 6)])
        = [("202401", (5 : ℚ))] := rfl
    rw [h]
    have hrec : recordOfEntry ("202401", (5 : ℚ)) = ⟨"January", 0, 5⟩ := by
      have h5 : round2 5 = 5 := by norm_num [round2, round_eq]
      show MonthlyRecord.mk _ _ (round2 5) = _
      rw [h5]
      rfl
    show [recordOfEntry ("202401", (5 : ℚ))] = _
    rw [hrec]
  · rw [averageDailyIrradiance_eq]
    have h : validEntries (rawOfEntries [("202401", 5), ("202402", -999), ("202413", 6)])
        = [("202401", (5 : ℚ))] := rfl
    rw [h]
    norm_num [round2, round_eq]

/-- Claim C6: two coordinate pairs whose latitudes and longitudes round to the
same 2-decimal values produce the same CoordinateKey, so `get` and `set`
address the same cache entry for both. -/
theorem same_bucket_same_cache_entry (lat1 lon1 lat2 lon2 : ℚ)
    (hlat : roundCoord lat1 = roundCoord lat2)
    (hlon : roundCoord lon1 = roundCoord lon2) :
    generateKey lat1 lon1 = generateKey lat2 lon2 ∧
    (∀ (c : CacheState) (now : ℚ), cacheGet c now lat1 lon1 = cacheGet c now lat2 lon2) ∧
    (∀ (c : CacheState) (now : ℚ) (data : NormalizedSolarData),
      cacheSet c now lat1 lon1 data = cacheSet c now lat2 lon2 data) := by
  have hk : generateKey lat1 lon1 = generateKey lat2 lon2 := by
    unfold generateKey
    rw [hlat, hlon]
  refine ⟨hk, fun c now => ?_, fun c now data => ?_⟩
  · unfold cacheGet
    rw [hk]
  · unfold cacheSet
    rw [hk]

/-- Witness for C6: (28.601, 77.199) and (28.6, 77.2) fall in the same
2-decimal bucket and get the same key. -/
theorem same_bucket_same_cache_entry_witness :
    roundCoord (28.601 : ℚ) = roundCoord (28.6 : ℚ) ∧
    roundCoord (77.199 : ℚ) = roundCoord (77.2 : ℚ) ∧
    generateKey (28.601 : ℚ) (77.199 : ℚ) = generateKey (28.6 : ℚ) (77.2 : ℚ) := by
  have h1 : roundCoord (28.601 : ℚ) = roundCoord (28.6 : ℚ) := by
    norm_num [roundCoord, round_eq]
  have h2 : roundCoord (77.199 : ℚ) = roundCoord (77.2 : ℚ) := by
    norm_num [roundCoord, round_eq]
  exact ⟨h1, h2, (same_bucket_same_cache_entry 28.601 77.199 28.6 77.2 h1 h2).1⟩

/-- Claim C7: starting from the empty cache, a first successful `getSolarData`
call invokes the provider exactly once and returns the normalized payload; a
repeat call for the same coordinates before the 24-hour TTL passes (whatever
the provider would answer the second time) invokes it zero further times and
returns a result identical to the first call's. -/
theorem first_call_fetches_once_repeat_hits_cache (rawData : RawResponse)
    (p2 : FetchOutcome) (now now2 lat lon : ℚ) (httl : now2 < now + 86400) :
    (getSolarData (FetchOutcome.response ⟨true, some rawData⟩) emptyCache now lat lon).2.2 = 1 ∧
    (getSolarData (FetchOutcome.response ⟨true, some rawData⟩) emptyCache now lat lon).1 =
      Except.ok (processNasaResponse rawData lat lon) ∧
    (getSolarData p2
      (getSolarData (FetchOutcome.response ⟨true, some rawData⟩) emptyCache now lat lon).2.1
      now2 lat lon).2.2 = 0 ∧
    (getSolarData p2
      (getSolarData (FetchOutcome.response ⟨true, some rawData⟩) emptyCache now lat lon).2.1
      now2 lat lon).1 =
      (getSolarData (FetchOutcome.response ⟨true, some rawData⟩) emptyCache now lat lon).1 := by
  have hfirst : getSolarData (FetchOutcome.response ⟨true, some rawData⟩) emptyCache now lat lon =
      (Except.ok (processNasaResponse rawData lat lon),
       cacheSet emptyCache now lat lon (processNasaResponse rawData lat lon), 1) := rfl
  have hhit : cacheGet (cacheSet emptyCache now lat lon (processNasaResponse rawData lat lon))
      now2 lat lon = some (processNasaResponse rawData lat lon) := by
    unfold cacheGet cacheSet emptyCache
    rw [List.filter_nil, List.find?_cons_of_pos _ (by simp)]
    exact if_pos httl
  have hsecond : getSolarData p2
      (cacheSet emptyCache now lat lon (processNasaResponse rawData lat lon)) now2 lat lon =
      (Except.ok (processNasaResponse rawData lat lon),
       cacheSet emptyCache now lat lon (processNasaResponse rawData lat lon), 0) := by
    unfold getSolarData
    rw [hhit]
  rw [hfirst, hsecond]
  exact ⟨rfl, rfl, rfl, rfl⟩

/-- Witness for C7: concrete first and repeat calls one second apart. -/
theorem first_call_fetches_once_repeat_hits_cache_witness :
    ((1 : ℚ) < 0 + 86400) ∧
    ((getSolarData (FetchOutcome.response ⟨true, some (RawResponse.mk none)⟩) emptyCache 0 12 77).2.2 = 1 ∧
     (getSolarData (FetchOutcome.response ⟨true, some (RawResponse.mk none)⟩) emptyCache 0 12 77).1 =
       Except.ok (processNasaResponse (RawResponse.mk none) 12 77) ∧
     (getSolarData FetchOutcome.networkFailure
       (getSolarData (FetchOutcome.response ⟨true, some (RawResponse.mk none)⟩) emptyCache 0 12 77).2.1
       1 12 77).2.2 = 0 ∧
     (getSolarData FetchOutcome.networkFailure
       (getSolarData (FetchOutcome.response ⟨true, some (RawResponse.mk none)⟩) emptyCache 0 12 77).2.1
       1 12 77).1 =
       (getSolarData (FetchOutcome.response ⟨true, some (RawResponse.mk none)⟩) emptyCache 0 12 77).1) :=
  ⟨by norm_num,
   first_call_fetches_once_repeat_hits_cache (RawResponse.mk none) FetchOutcome.networkFailure
     0 1 12 77 (by norm_num)⟩

lemma round2_nonneg {q : ℚ} (h : 0 ≤ q) : 0 ≤ round2 q := by
  unfold round2
  have hr : (0 : ℤ) ≤ round (q * 100) := by
    rw [round_eq]
    exact Int.floor_nonneg.mpr (by linarith)
  exact div_nonneg (by exact_mod_cast hr) (by norm_num)

/-- Claim C4, amended: `monthlyData` never contains a sentinel-derived entry
(every recorded irradiance is the rounding of a non-negative reading, hence
non-negative), and `averageDailyIrradiance` is the 2-decimal rounding of the
mean of the raw readings of exactly the entries present in `monthlyData` (one
record per valid entry).  The amendment: the average is computed from the raw
readings of those entries and then rounded once, not from the already-rounded
irradiance values recorded in `monthlyData` — the two disagree in the last
decimal for some payloads (see the counterexample). -/
theorem normalizer_invariant_amended (rawData : RawResponse) (lat lon : ℚ) :
    ((processNasaResponse rawData lat lon).monthlyData.all
      fun r => decide (0 ≤ r.irradiance)) = true ∧
    (processNasaResponse rawData lat lon).monthlyData.length = (validEntries rawData).length ∧
    (processNasaResponse rawData lat lon).averageDailyIrradiance =
      (if 0 < (validEntries rawData).length then
        round2 (((validEntries rawData).map Prod.snd).sum /
          ((validEntries rawData).length : ℚ))
      else 0) := by
  have hperm : ((processNasaResponse rawData lat lon).monthlyData).Perm
      ((validEntries rawData).map recordOfEntry) := by
    rw [monthlyData_eq]
    exact List.perm_insertionSort byMonthIndex _
  refine ⟨?_, ?_, averageDailyIrradiance_eq rawData lat lon⟩
  · rw [List.all_eq_true]
    intro r hr
    rw [hperm.mem_iff] at hr
    rcases List.mem_map.mp hr with ⟨e, he, hrec⟩
    have hval : isValidEntry e = true := (List.mem_filter.mp he).2
    have hnneg : 0 ≤ e.2 := by
      simp only [isValidEntry, Bool.and_eq_true, Bool.not_eq_true',
        decide_eq_false_iff_not, not_lt] at hval
      exact hval.2
    subst hrec
    exact decide_eq_true (round2_nonneg hnneg)
  · rw [hperm.length_eq, List.length_map]

/-- Counterexample to claim C4 as frozen: for the raw map
`{"202401": 0.004, "202402": 0.005}` the Normalizer records irradiances
`0.00` and `0.01` (individually rounded) while `averageDailyIrradiance` is
`round2((0.004+0.005)/2) = 0`, which differs from the mean `0.005` of the
values recorded in `monthlyData`. -/
theorem invariant_mean_of_recorded_counterexample :
    ¬ ((processNasaResponse (rawOfEntries [("202401", 0.004), ("202402", 0.005)]) 0 0).averageDailyIrradiance =
        ((processNasaResponse (rawOfEntries [("202401", 0.004), ("202402", 0.005)]) 0 0).monthlyData.map
            MonthlyRecord.irradiance).sum /
          (((processNasaResponse (rawOfEntries [("202401", 0.004), ("202402", 0.005)]) 0 0).monthlyData.length : ℚ))) := by
  have hval1 : isValidEntry ("202401", (0.004 : ℚ)) = true := by
    simp only [isValidEntry, show jsEndsWith "202401" "13" = false from rfl,
      Bool.not_false, Bool.true_and, Bool.not_eq_true', decide_eq_false_iff_not]
    norm_num
  have hval2 : isValidEntry ("202402", (0.005 : ℚ)) = true := by
    simp only [isValidEntry, show jsEndsWith "202402" "13" = false from rfl,
      Bool.not_false, Bool.true_and, Bool.not_eq_true', decide_eq_false_iff_not]
    norm_num
  have hv : validEntries (rawOfEntries [("202401", 0.004), ("202402", 0.005)])
      = [("202401", (0.004 : ℚ)), ("202402", (0.005 : ℚ))] := by
    show List.filter isValidEntry [("202401", (0.004 : ℚ)), ("202402", (0.005 : ℚ))] = _
    rw [List.filter_cons_of_pos hval1, List.filter_cons_of_pos hval2, List.filter_nil]
  have hperm : ((processNasaResponse (rawOfEntries [("202401", 0.004), ("202402", 0.005)]) 0 0).monthlyData).Perm
      ((validEntries (rawOfEntries [("202401", 0.004), ("202402", 0.005)])).map recordOfEntry) := by
    rw [monthlyData_eq]
    exact List.perm_insertionSort byMonthIndex _
  have hlen : (processNasaResponse (rawOfEntries [("202401", 0.004), ("202402", 0.005)]) 0 0).monthlyData.length = 2 := by
    rw [hperm.length_eq, hv]
    rfl
  have hsum : ((processNasaResponse (rawOfEntries [("202401", 0.004), ("202402", 0.005)]) 0 0).monthlyData.map
      MonthlyRecord.irradiance).sum = round2 0.004 + round2 0.005 := by
    rw [(hperm.map MonthlyRecord.irradiance).sum_eq, hv]
    simp [recordOfEntry]
  have havg : (processNasaResponse (rawOfEntries [("202401", 0.004), ("202402", 0.005)]) 0 0).averageDailyIrradiance = 0 := by
    rw [averageDailyIrradiance_eq, hv]
    norm_num [round2, round_eq]
  intro hEq
  rw [havg, hsum, hlen] at hEq
  norm_num [round2, round_eq] at hEq

lemma handleSolar_some_some (fetchSolar : ℚ → ℚ → Except String NormalizedSolarData)
    (slat slon : String) (h1 : slat ≠ "") (h2 : slon ≠ "") :
    handleSolar fetchSolar (some slat) (some slon) =
      match parseFloatQ slat with
      | none => ⟨400, invalidLatBody⟩
      | some latitude =>
        if latitude < -90 ∨ latitude > 90 then ⟨400, invalidLatBody⟩
        else
          match parseFloatQ slon with
          | none => ⟨400, invalidLonBody⟩
          | some longitude =>
            if longitude < -180 ∨ longitude > 180 then ⟨400, invalidLonBody⟩
            else
              match fetchSolar latitude longitude with
              | Except.ok solarData => ⟨200, successBody solarData latitude longitude⟩
              | Except.error _ => ⟨500, apiErrorBody⟩ := by
  unfold handleSolar
  rw [if_neg (by simp [h1, h2])]
  simp only [Option.getD_some]

/-- Claim C8: the solar endpoint returns 400 with an `error` field when `lat`
or `lon` is missing, 400 with an `error` field when the latitude is
non-numeric or outside [-90, 90] or the longitude is non-numeric or outside
[-180, 180], and — when the parameters are well-formed and the Fetcher
succeeds — 200 with the fetched `NormalizedSolarData` verbatim under `data`
in the `{success: true, data, location}` envelope. -/
theorem endpoint_validation_and_success
    (fetchSolar : ℚ → ℚ → Except String NormalizedSolarData) :
    (∀ lonParam, (handleSolar fetchSolar none lonParam).status = 400 ∧
      ((handleSolar fetchSolar none lonParam).body.error).isSome = true) ∧
    (∀ latParam, (handleSolar fetchSolar latParam none).status = 400 ∧
      ((handleSolar fetchSolar latParam none).body.error).isSome = true) ∧
    (∀ slat slon : String,
      (parseFloatQ slat = none ∨ ∃ q, parseFloatQ slat = some q ∧ (q < -90 ∨ q > 90)) →
      (handleSolar fetchSolar (some slat) (some slon)).status = 400 ∧
      ((handleSolar fetchSolar (some slat) (some slon)).body.error).isSome = true) ∧
    (∀ slat slon : String,
      (parseFloatQ slon = none ∨ ∃ q, parseFloatQ slon = some q ∧ (q < -180 ∨ q > 180)) →
      (handleSolar fetchSolar (some slat) (some slon)).status = 400 ∧
      ((handleSolar fetchSolar (some slat) (some slon)).body.error).isSome = true) ∧
    (∀ (slat slon : String) (qlat qlon : ℚ) (solarData : NormalizedSolarData),
      slat ≠ "" → slon ≠ "" →
      parseFloatQ slat = some qlat → ¬(qlat < -90 ∨ qlat > 90) →
      parseFloatQ slon = some qlon → ¬(qlon < -180 ∨ qlon > 180) →
      fetchSolar qlat qlon = Except.ok solarData →
      handleSolar fetchSolar (some slat) (some slon) =
        ⟨200, successBody solarData qlat qlon⟩) := by
  refine ⟨fun lonParam => ?_, fun latParam => ?_, fun slat slon h => ?_,
    fun slat slon h => ?_,
    fun slat slon qlat qlon solarData hlat0 hlon0 hplat hrlat hplon hrlon hfetch => ?_⟩
  · constructor
    · simp [handleSolar]
    · simp [handleSolar, missingParamsBody]
  · constructor
    · simp [handleSolar]
    · simp [handleSolar, missingParamsBody]
  · by_cases hem : slat = "" ∨ slon = ""
    · unfold handleSolar
      rw [if_pos (by rcases hem with h1 | h1 <;> simp [h1])]
      exact ⟨rfl, rfl⟩
    · push_neg at hem
      rw [handleSolar_some_some fetchSolar slat slon hem.1 hem.2]
      rcases h with hnone | ⟨q, hq, hrange⟩
      · rw [hnone]
        exact ⟨rfl, rfl⟩
      · simp [hq, hrange, invalidLatBody]
  · by_cases hem : slat = "" ∨ slon = ""
    · unfold handleSolar
      rw [if_pos (by rcases hem with h1 | h1 <;> simp [h1])]
      exact ⟨rfl, rfl⟩
    · push_neg at hem
      rw [handleSolar_some_some fetchSolar slat slon hem.1 hem.2]
      cases hplat2 : parseFloatQ slat with
      | none => exact ⟨rfl, rfl⟩
      | some qlat2 =>
        by_cases hr : qlat2 < -90 ∨ qlat2 > 90
        · simp [hr, invalidLatBody]
        · rcases h with hnone | ⟨q, hq, hrange⟩
          · simp [hr, hnone, invalidLonBody]
          · simp [hr, hq, hrange, invalidLonBody]
  · rw [handleSolar_some_some fetchSolar slat slon hlat0 hlon0]
    simp [hplat, hplon, hrlat, hrlon, hfetch]

/-- A fixed `NormalizedSolarData`, standing in for a stubbed fetcher result. -/
def stubSolarData : NormalizedSolarData :=
  { averageDailyIrradiance := 5
    monthlyData := []
    dataSource := "stub"
    parameter := "stub"
    unit := "stub"
    location := { latitude := 0, longitude := 0 }
    note := "stub" }

/-- A stubbed Fetcher that always succeeds with `stubSolarData`. -/
def stubFetcher (_latitude _longitude : ℚ) : Except String NormalizedSolarData :=
  Except.ok stubSolarData

/-- Witness for C8: `lat=91` gives 400 with an error field, a missing `lon`
gives 400 with an error field, and `lat=28.6&lon=77.2` against the stubbed
fetcher gives 200 with `stubSolarData` verbatim under `data`. -/
theorem endpoint_validation_and_success_witness :
    ((handleSolar stubFetcher (some "91") (some "77.2")).status = 400 ∧
     ((handleSolar stubFetcher (some "91") (some "77.2")).body.error).isSome = true) ∧
    ((handleSolar stubFetcher (some "28.6") none).status = 400 ∧
     ((handleSolar stubFetcher (some "28.6") none).body.error).isSome = true) ∧
    handleSolar stubFetcher (some "28.6") (some "77.2") =
      ⟨200, successBody stubSolarData (28.6 : ℚ) (77.2 : ℚ)⟩ := by
  have h91 : parseFloatQ "91" = some (91 : ℚ) := by
    have h0 : parseFloatQ "91" = some (floatOfParts 1 ['9', '1'] []) := rfl
    rw [h0]
    norm_num [floatOfParts, show digitsToNat ['9', '1'] = 91 from rfl,
      show digitsToNat ([] : List Char) = 0 from rfl]
  have h286 : parseFloatQ "28.6" = some (28.6 : ℚ) := by
    have h0 : parseFloatQ "28.6" = some (floatOfParts 1 ['2', '8'] ['6']) := rfl
    rw [h0]
    norm_num [floatOfParts, show digitsToNat ['2', '8'] = 28 from rfl,
      show digitsToNat ['6'] = 6 from rfl]
  have h772 : parseFloatQ "77.2" = some (77.2 : ℚ) := by
    have h0 : parseFloatQ "77.2" = some (floatOfParts 1 ['7', '7'] ['2']) := rfl
    rw [h0]
    norm_num [floatOfParts, show digitsToNat ['7', '7'] = 77 from rfl,
      show digitsToNat ['2'] = 2 from rfl]
  exact ⟨(endpoint_validation_and_success stubFetcher).2.2.1 "91" "77.2"
      (Or.inr ⟨91, h91, Or.inr (by norm_num)⟩),
    (endpoint_validation_and_success stubFetcher).2.1 (some "28.6"),
    (endpoint_validation_and_success stubFetcher).2.2.2.2 "28.6" "77.2" 28.6 77.2 stubSolarData
      (by decide) (by decide) h286 (by norm_num) h772 (by norm_num) rfl⟩
